import Mathlib

/-
  Verification development for a repository of five near-duplicate
  LLM-to-SQL chat scripts (app.py, app_3.py, app_4.py, new_app.py, main.py).

  The orchestration code is shallowly embedded here.  Query texts are
  modelled as lists of Unicode code points (List Nat), so that the Python
  string operations used by the scripts (str.strip, str.lower, str.upper,
  str.startswith, substring containment, regex fence stripping) become
  executable Lean functions on Nat lists.  Database rows are opaque record
  handles (Nat); the scripts never inspect row contents, only counts and
  truncation.
-/

/-- Query texts and other byte strings, as lists of code points. -/
abbrev Str := List Nat

/-- Code points of a Lean string literal. -/
def strCodes (s : String) : Str := s.toList.map Char.toNat

/-- Python str.lower on one code point (ASCII letters; the SQL keywords the
scripts compare against are all ASCII). -/
def lowerN (n : Nat) : Nat := if 65 ≤ n ∧ n ≤ 90 then n + 32 else n

/-- Python str.upper on one code point (ASCII letters). -/
def upperN (n : Nat) : Nat := if 97 ≤ n ∧ n ≤ 122 then n - 32 else n

/-- Python str.lower. -/
def toLowerL (s : Str) : Str := s.map lowerN

/-- Python str.upper. -/
def toUpperL (s : Str) : Str := s.map upperN

/-- The code points Python str.strip and the regex class backslash-s treat as
whitespace: space, tab, newline, carriage return, vertical tab, form feed. -/
def isPySpaceN (n : Nat) : Bool :=
  decide (n = 32 ∨ n = 9 ∨ n = 10 ∨ n = 13 ∨ n = 11 ∨ n = 12)

/-- Python str.strip(): drop whitespace from both ends. -/
def trimL (s : Str) : Str :=
  ((s.dropWhile isPySpaceN).reverse.dropWhile isPySpaceN).reverse

/-- Python str.startswith for a single pattern: the pattern is an initial
segment of the text. -/
def isPre : Str → Str → Bool
  | [], _ => true
  | _ :: _, [] => false
  | a :: as, b :: bs => a == b && isPre as bs

/-- Python substring containment (the `in` operator on strings): the needle
occurs contiguously somewhere in the haystack. -/
def containsSub (needle : Str) : Str → Bool
  | [] => needle.isEmpty
  | b :: bs => isPre needle (b :: bs) || containsSub needle bs

/-- Python str.startswith with a tuple of patterns. -/
def startsWithAnyKw (s : Str) (kws : List Str) : Bool :=
  kws.any (fun k => isPre k s)

/- ===== basic lemmas about the string machinery ===== -/

theorem isPre_iff : ∀ (n m : Str), isPre n m = true ↔ ∃ r, m = n ++ r
  | [], m => by simp [isPre]
  | _ :: _, [] => by simp [isPre]
  | a :: as, b :: bs => by
    simp only [isPre, Bool.and_eq_true, beq_iff_eq, isPre_iff as bs,
      List.cons_append]
    constructor
    · rintro ⟨rfl, r, rfl⟩
      exact ⟨r, rfl⟩
    · rintro ⟨r, hr⟩
      cases hr
      exact ⟨rfl, r, rfl⟩

theorem isPre_self_append (l r : Str) : isPre l (l ++ r) = true :=
  (isPre_iff l (l ++ r)).mpr ⟨r, rfl⟩

theorem containsSub_iff (n : Str) :
    ∀ m, containsSub n m = true ↔ ∃ s t, m = s ++ n ++ t := by
  intro m
  induction m with
  | nil =>
    simp only [containsSub, List.isEmpty_iff]
    constructor
    · rintro rfl
      exact ⟨[], [], rfl⟩
    · rintro ⟨s, t, hst⟩
      rcases List.append_eq_nil.mp hst.symm with ⟨h1, h2⟩
      exact (List.append_eq_nil.mp h1).2
  | cons b bs ih =>
    simp only [containsSub, Bool.or_eq_true, isPre_iff, ih]
    constructor
    · rintro (⟨r, hr⟩ | ⟨s, t, hst⟩)
      · exact ⟨[], r, by simpa using hr⟩
      · exact ⟨b :: s, t, by simp [hst]⟩
    · rintro ⟨s, t, hst⟩
      cases s with
      | nil => exact Or.inl ⟨t, by simpa using hst⟩
      | cons c cs =>
        right
        refine ⟨cs, t, ?_⟩
        have : b :: bs = c :: (cs ++ n ++ t) := by simpa using hst
        injection this with h1 h2

theorem containsSub_reverse {n l : Str} (h : containsSub n l = true) :
    containsSub n.reverse l.reverse = true := by
  rcases (containsSub_iff n l).mp h with ⟨s, t, rfl⟩
  refine (containsSub_iff n.reverse (s ++ n ++ t).reverse).mpr ?_
  exact ⟨t.reverse, s.reverse, by simp⟩

theorem containsSub_dropWhile (p : Nat → Bool) (n : Str) (hne : n ≠ [])
    (hws : ∀ c ∈ n, p c = false) :
    ∀ l : Str, containsSub n l = true → containsSub n (l.dropWhile p) = true := by
  intro l
  induction l with
  | nil =>
    intro h
    simpa using h
  | cons b bs ih =>
    intro h
    rw [List.dropWhile_cons]
    split
    · next hpb =>
      refine ih ?_
      simp only [containsSub, Bool.or_eq_true] at h
      rcases h with hpre | hrest
      · exfalso
        cases n with
        | nil => exact hne rfl
        | cons c cs =>
          rcases (isPre_iff (c :: cs) (b :: bs)).mp hpre with ⟨r, hr⟩
          have hcb : c = b := by
            injection hr with h1 h2
            exact h1.symm
          have := hws c (by simp)
          rw [hcb, hpb] at this
          exact Bool.true_eq_false.mp this
      · exact hrest
    · exact h

theorem containsSub_trimL {n l : Str} (hne : n ≠ [])
    (hws : ∀ c ∈ n, isPySpaceN c = false) (h : containsSub n l = true) :
    containsSub n (trimL l) = true := by
  have h1 : containsSub n (l.dropWhile isPySpaceN) = true :=
    containsSub_dropWhile isPySpaceN n hne hws l h
  have h2 : containsSub n.reverse (l.dropWhile isPySpaceN).reverse = true :=
    containsSub_reverse h1
  have hne2 : n.reverse ≠ [] := by
    intro hr
    exact hne (by simpa using congrArg List.reverse hr)
  have hws2 : ∀ c ∈ n.reverse, isPySpaceN c = false := by
    intro c hc
    exact hws c (List.mem_reverse.mp hc)
  have h3 :
      containsSub n.reverse
        ((l.dropWhile isPySpaceN).reverse.dropWhile isPySpaceN) = true :=
    containsSub_dropWhile isPySpaceN n.reverse hne2 hws2 _ h2
  have h4 := containsSub_reverse h3
  simpa [trimL] using h4

theorem isPySpaceN_lowerN (n : Nat) : isPySpaceN (lowerN n) = isPySpaceN n := by
  unfold lowerN
  split
  · next h =>
    unfold isPySpaceN
    rw [decide_eq_decide]
    constructor <;> intro <;> omega
  · rfl

theorem dropWhile_map_lowerN (l : Str) :
    (l.map lowerN).dropWhile isPySpaceN = (l.dropWhile isPySpaceN).map lowerN := by
  induction l with
  | nil => rfl
  | cons a t ih =>
    simp only [List.map_cons, List.dropWhile_cons, isPySpaceN_lowerN]
    split
    · exact ih
    · rfl

theorem toLowerL_trimL (s : Str) : trimL (toLowerL s) = toLowerL (trimL s) := by
  simp only [trimL, toLowerL]
  rw [dropWhile_map_lowerN, ← List.map_reverse, dropWhile_map_lowerN,
    ← List.map_reverse]

/- ===== the external data store and the observable calls against it ===== -/

/-- One call issued against the data store.  `exec` is `cursor.execute(sql)`;
`commit` is `connection.commit()`.  psycopg2 opens connections with
autocommit off, so a data modification reaches the store only when a commit
is issued; closing a connection without committing rolls back. -/
inductive DbEvent
  | exec (sql : Str)
  | commit
deriving DecidableEq

/-- What the store does with one executed statement: either it runs it
(returning the result rows, their column names, and cursor.rowcount), or it
raises (syntax error, connectivity error, timeout).  The `err` constructor
models a raised psycopg2 exception. -/
inductive DbResp
  | ok (cols : List String) (rows : List Nat) (rowcount : Nat)
  | err (msg : String)
deriving DecidableEq

/-- The data store as an oracle from statement text to its behaviour. -/
def DB := Str → DbResp

/-- The texts of the execute calls in an event trace. -/
def execCalls : List DbEvent → List Str
  | [] => []
  | DbEvent.exec q :: t => q :: execCalls t
  | DbEvent.commit :: t => execCalls t

/-- The denylist checked by app_4.py line 113: data-modifying keywords,
lowercase (the query text is lowercased before the substring test). -/
def forbiddenKws : List Str :=
  [strCodes "insert", strCodes "update", strCodes "delete", strCodes "drop",
   strCodes "create", strCodes "alter", strCodes "grant"]

/-- The read-only lead keywords accepted by app.py extract_sql (line 112). -/
def readKws : List Str :=
  [strCodes "select", strCodes "with", strCodes "explain", strCodes "show",
   strCodes "pragma"]

/-- The read-only lead keywords named by the specification (section 4.2):
SELECT / WITH / SHOW / EXPLAIN. -/
def specReadOnlyKws : List Str :=
  [strCodes "select", strCodes "with", strCodes "show", strCodes "explain"]

namespace App4

/- Embedding of src/app_4.py. -/

/-- Outcome of the execute_sql_query tool branch of app_4.py (lines 108-142),
keeping the structure of the result string it builds: the policy refusal
(line 114), the empty-result message (line 124), the markdown table of
`df.head(100)` with its total row count and truncation note (lines 130-132),
or the caught-exception message (line 137). -/
inductive Result
  | policyError
  | noRows
  | table (total : Nat) (shown : List Nat) (truncated : Bool)
  | execFailed
deriving DecidableEq

/-- The denylist test of app_4.py line 113: after `arguments["sql"].strip()`
(line 109) and `.lower()` (line 112), does any forbidden keyword occur
anywhere in the text? -/
def blocked (sqlRaw : Str) : Bool :=
  forbiddenKws.any (fun kw => containsSub kw (toLowerL (trimL sqlRaw)))

/-- The execute_sql_query tool branch of app_4.py (lines 108-142): strip the
argument, refuse on the denylist without touching the store, otherwise
execute once, cap the returned rows at 100 and flag truncation, and convert
a raised exception into the failure message.  No commit is ever issued. -/
def execute_sql_query (db : DB) (sqlRaw : Str) : Result × List DbEvent :=
  if blocked sqlRaw then
    (Result.policyError, [])
  else
    match db (trimL sqlRaw) with
    | DbResp.err _ => (Result.execFailed, [DbEvent.exec (trimL sqlRaw)])
    | DbResp.ok _ rows _ =>
      if rows.isEmpty then
        (Result.noRows, [DbEvent.exec (trimL sqlRaw)])
      else
        (Result.table rows.length (rows.take 100) (decide (100 < rows.length)),
         [DbEvent.exec (trimL sqlRaw)])

end App4

/- ===== conversation messages and the model endpoint ===== -/

/-- One message of the conversation, as the scripts store them in
st.session_state.messages.  `ρ` is the payload type of a tool-result
content of a tool-result message (the scripts store a textual serialization; the embedding
keeps it structured).  `assistantToolCall` is the assistant message that
carries a tool_calls entry instead of text; `toolResult` is the
role "tool" (app_4.py) or role "function" (app_3.py) bookkeeping message. -/
inductive Msg (ρ : Type)
  | system (s : String)
  | user (s : String)
  | assistantText (s : String)
  | assistantToolCall (id : Nat) (fname : String) (sqlArg : Str)
  | toolResult (id : Nat) (fname : String) (content : ρ)
deriving DecidableEq

/-- What the model endpoint returns for one chat.completions.create call:
plain assistant text, or a tool-call request (only the first tool call of a
response is ever read by the scripts).  A raised exception (for example a
request timeout; the clients are built with timeout=60) is `Except.error`. -/
inductive LLMResp
  | text (content : String)
  | toolCall (id : Nat) (fname : String) (sqlArg : Str)

/-- The model endpoint as an oracle: the messages submitted and whether tool
declarations were attached, to the response or a raised exception. -/
def LLM (ρ : Type) := List (Msg ρ) → Bool → Except String LLMResp

/-- One observed call to the model endpoint: the conversation submitted and
whether tool declarations were attached. -/
structure LLMCall (ρ : Type) where
  msgs : List (Msg ρ)
  withTools : Bool
deriving DecidableEq

/-- How a user turn ended: aborted by an uncaught upstream exception, or
completed with a final assistant text. -/
inductive Outcome
  | aborted (err : String)
  | done (answer : String)
deriving DecidableEq

/-- Everything observable about one user turn: the conversation afterwards,
how the turn ended, the model-endpoint calls made, and the data-store calls
issued. -/
structure TurnOut (ρ : Type) where
  conv : List (Msg ρ)
  outcome : Outcome
  llmCalls : List (LLMCall ρ)
  dbEvents : List DbEvent
deriving DecidableEq

namespace App4

/-- The chat-input handler of app_4.py (lines 81-171) for one user turn:
append the user message (line 82), call the model with the tool declarations
(lines 91-98; an exception aborts the turn with nothing further appended),
and then either take the plain-text answer (line 168), or, when the first
tool call is named execute_sql_query, run the tool, append the assistant
tool-call message and the tool-result message (lines 146-156), call the
model again without tool declarations (lines 159-163), and append that
final assistant text (line 171).  A tool call with any other name is
silently skipped, leaving full_response at its initial empty string. -/
def turn (llm : LLM Result) (db : DB) (msgs0 : List (Msg Result))
    (prompt : String) : TurnOut Result :=
  let conv1 := msgs0 ++ [Msg.user prompt]
  match llm conv1 true with
  | Except.error e => ⟨conv1, Outcome.aborted e, [⟨conv1, true⟩], []⟩
  | Except.ok (LLMResp.text t) =>
    let full := if t = "" then "Sorry, I could not process that." else t
    ⟨conv1 ++ [Msg.assistantText full], Outcome.done full, [⟨conv1, true⟩], []⟩
  | Except.ok (LLMResp.toolCall id fname sqlArg) =>
    if fname = "execute_sql_query" then
      let r := execute_sql_query db sqlArg
      let conv2 := conv1 ++
        [Msg.assistantToolCall id fname sqlArg, Msg.toolResult id fname r.1]
      match llm conv2 false with
      | Except.error e =>
        ⟨conv2, Outcome.aborted e, [⟨conv1, true⟩, ⟨conv2, false⟩], r.2⟩
      | Except.ok r2 =>
        let t := match r2 with
          | LLMResp.text t => t
          | LLMResp.toolCall _ _ _ => ""
        ⟨conv2 ++ [Msg.assistantText t], Outcome.done t,
         [⟨conv1, true⟩, ⟨conv2, false⟩], r.2⟩
    else
      ⟨conv1 ++ [Msg.assistantText ""], Outcome.done "",
       [⟨conv1, true⟩], []⟩

/-- The history display loop of app_4.py (lines 50-52): every stored message
except the first (the system prompt) is rendered, including assistant
tool-call and tool-result bookkeeping messages. -/
def render {ρ : Type} (msgs : List (Msg ρ)) : List (Msg ρ) := msgs.drop 1

end App4

namespace App3

/- Embedding of src/app_3.py. -/

/-- Value returned by the app_3.py tool functions, keeping the structure of
the dicts they build: the select-result dict {"columns", "data",
"row_count"} (line 80), the rows-affected message dict (line 83), the
caught-exception dict {"error"} (lines 86, 121), and the two
get_table_schema shapes (lines 109, 118). -/
inductive Value
  | table (cols : List String) (data : List Nat) (rowCount : Nat)
  | message (rowsAffected : Nat)
  | error (e : String)
  | tables (rows : List Nat)
  | tableSchema (t : Str) (rows : List Nat)
deriving DecidableEq

/-- execute_sql_query of app_3.py (lines 70-91): execute the query as given
(no policy check), then, if it starts with select/show/describe
(case-insensitive, after strip), fetch and return all rows with no cap;
otherwise COMMIT it and report cursor.rowcount.  Any raised exception is
caught and returned as an error dict, so the function itself never
raises. -/
def execute_sql_query (db : DB) (query : Str) : Value × List DbEvent :=
  match db query with
  | DbResp.err e => (Value.error e, [DbEvent.exec query])
  | DbResp.ok cols rows rowcount =>
    if startsWithAnyKw (toLowerL (trimL query))
        [strCodes "select", strCodes "show", strCodes "describe"] then
      (Value.table cols rows rows.length, [DbEvent.exec query])
    else
      (Value.message rowcount, [DbEvent.exec query, DbEvent.commit])

/-- The fixed information_schema query issued by get_table_schema when no
table name is given (app_3.py lines 112-116). -/
def infoTablesQuery : Str :=
  strCodes "SELECT table_name FROM information_schema.tables WHERE table_schema = public"

/-- The fixed information_schema query issued by get_table_schema for one
table (app_3.py lines 102-107). -/
def infoColumnsQuery : Str :=
  strCodes "SELECT column_name, data_type, is_nullable FROM information_schema.columns"

/-- get_table_schema of app_3.py (lines 94-126): one read against
information_schema, exceptions caught and returned as an error dict. -/
def get_table_schema (db : DB) (tableName : Option Str) : Value × List DbEvent :=
  match tableName with
  | some t =>
    match db infoColumnsQuery with
    | DbResp.err e => (Value.error e, [DbEvent.exec infoColumnsQuery])
    | DbResp.ok _ rows _ => (Value.tableSchema t rows, [DbEvent.exec infoColumnsQuery])
  | none =>
    match db infoTablesQuery with
    | DbResp.err e => (Value.error e, [DbEvent.exec infoTablesQuery])
    | DbResp.ok _ rows _ => (Value.tables rows, [DbEvent.exec infoTablesQuery])

/-- The function-call dispatch of process_user_input (app_3.py lines
144-156): `function_to_call = available_functions[function_name]` indexes a
dict whose only keys are query_database and get_table_schema; any other
requested name raises an uncaught KeyError (modelled by `Except.error`),
which crashes the turn because process_user_input has no try/except. -/
def dispatch (db : DB) (fname : String) (query : Str) (tableName : Option Str) :
    Except String (Value × List DbEvent) :=
  if fname = "query_database" then
    Except.ok (execute_sql_query db query)
  else if fname = "get_table_schema" then
    Except.ok (get_table_schema db tableName)
  else
    Except.error ("KeyError: " ++ fname)

/-- The history display loop of app_3.py (lines 214-217): a stored message is
rendered exactly when its role string is "user" or "assistant".  Note an
assistant message that carried a tool call would also have role
"assistant". -/
def render {ρ : Type} (msgs : List (Msg ρ)) : List (Msg ρ) :=
  msgs.filter (fun m =>
    match m with
    | Msg.user _ => true
    | Msg.assistantText _ => true
    | Msg.assistantToolCall _ _ _ => true
    | _ => false)

end App3

namespace NewApp

/- Embedding of src/new_app.py. -/

/-- What the call site stores in `rows`: the fetched rows, or (after the
call-site try/except of lines 103-107) the error dict built from the caught
exception. -/
inductive Rows
  | rows (rs : List Nat)
  | error (e : String)
deriving DecidableEq

/-- execute_sql_query of new_app.py (lines 16-29): connect, execute the SQL
exactly as given — there is no policy check of any kind — and fetch all
rows.  An exception raised by the store propagates to the caller (the call
site catches it). -/
def execute_sql_query (db : DB) (sql : Str) : DbResp × List DbEvent :=
  (db sql, [DbEvent.exec sql])

/-- The tool-call branch of new_app.py (lines 95-107): when the requested
tool is execute_sql_query, run it and catch any raised exception into an
error value; any other tool name is silently ignored (`none`). -/
def dispatchToolCall (db : DB) (fname : String) (sql : Str) :
    Option (Rows × List DbEvent) :=
  if fname = "execute_sql_query" then
    some (match execute_sql_query db sql with
      | (DbResp.ok _ rows _, ev) => (Rows.rows rows, ev)
      | (DbResp.err e, ev) => (Rows.error e, ev))
  else
    none

end NewApp

namespace MainPy

/- Embedding of src/main.py. -/

/-- The /ask endpoint body of main.py (lines 56-74), from the already
generated SQL text onwards: execute it with NO try/except, fetch all rows,
and commit unconditionally.  A raised store exception (`Except.error`)
propagates out of the handler and crashes the turn; nothing is caught. -/
def ask (db : DB) (sql : Str) : Except String (List Nat) × List DbEvent :=
  match db sql with
  | DbResp.err e => (Except.error e, [DbEvent.exec sql])
  | DbResp.ok _ rows _ => (Except.ok rows, [DbEvent.exec sql, DbEvent.commit])

end MainPy

namespace App

/- Embedding of src/app.py. -/

/-- The backtick code point. -/
def btick : Nat := 96

/-- The regex substitution of app.py line 104, `^`-anchored: remove a leading
code fence, an optional case-insensitive "sql" tag, and the following
whitespace. -/
def stripFenceStart (t : Str) : Str :=
  if isPre [btick, btick, btick] t then
    let r := t.drop 3
    let r2 := if isPre (strCodes "sql") (toLowerL r) then r.drop 3 else r
    r2.dropWhile isPySpaceN
  else t

/-- The regex substitution of app.py line 105, `$`-anchored: remove a
trailing code fence (Python `$` also matches just before a final
newline). -/
def stripFenceEnd (t : Str) : Str :=
  if isPre [btick, btick, btick] t.reverse then
    (t.reverse.drop 3).reverse
  else if isPre (10 :: [btick, btick, btick]) t.reverse then
    (10 :: t.reverse.drop 4).reverse
  else t

/-- The cleaned SQL computed inside extract_sql (app.py lines 104-109):
fences stripped, then strip(). -/
def cleanSql (text : Str) : Str := trimL (stripFenceEnd (stripFenceStart text))

/-- extract_sql of app.py (lines 98-119): after cleaning, the text must
match a leading read-only keyword (regex of line 112, IGNORECASE, after
optional whitespace) and must be at most 2000 characters (line 116);
otherwise a ValueError is raised, modelled as `Except.error` with the
message text. -/
def extract_sql (text : Str) : Except String Str :=
  let sql := cleanSql text
  if !(startsWithAnyKw (toLowerL (sql.dropWhile isPySpaceN)) readKws) then
    Except.error "Generated text does not appear to be a valid SQL query"
  else if 2000 < sql.length then
    Except.error "Generated SQL is too long"
  else
    Except.ok sql

/-- The string the call site (app.py line 125) puts into sql_query when
extract_sql raises. -/
def failMsg (e : String) : Str := strCodes ("Failed to extract clean SQL: " ++ e)

/-- What app.py line 157 or 159 leaves in `rows` after the second execution
block: the fetched tuples, or the caught-exception message string. -/
inductive Rows
  | fetched (rs : List Nat)
  | sqlError (e : String)
deriving DecidableEq

/-- The store calls of the first execution block (app.py lines 130-147):
execute; on success, fetch when the (upper-cased, stripped) text starts with
SELECT, otherwise COMMIT; exceptions caught.  Its computed `rows` value is a
dead store — the second block overwrites it — so only the events are
returned. -/
def firstBlock (db : DB) (q : Str) : List DbEvent :=
  match db q with
  | DbResp.err _ => [DbEvent.exec q]
  | DbResp.ok _ _ _ =>
    if isPre (strCodes "SELECT") (toUpperL (trimL q)) then
      [DbEvent.exec q]
    else
      [DbEvent.exec q, DbEvent.commit]

/-- The second execution block (app.py lines 153-162): execute the SAME
sql_query again on a fresh connection, catch exceptions into an error
string, and commit unconditionally. -/
def secondBlock (db : DB) (q : Str) : Rows × List DbEvent :=
  match db q with
  | DbResp.err e => (Rows.sqlError e, [DbEvent.exec q, DbEvent.commit])
  | DbResp.ok _ rows _ => (Rows.fetched rows, [DbEvent.exec q, DbEvent.commit])

/-- The per-turn SQL pipeline of app.py (lines 122-162), from the raw model
output to the final `rows` value and the trace of store calls.  When
extract_sql raises, sql_query becomes the failure message string and the
first block is skipped (the `else:` of the try), but the second block still
executes that failure string.  When extraction succeeds, BOTH duplicated
blocks execute the query, so it reaches the store twice. -/
def pipeline (db : DB) (raw : Str) : Str × Rows × List DbEvent :=
  match extract_sql raw with
  | Except.error e =>
    let q := failMsg e
    let (r2, ev2) := secondBlock db q
    (q, r2, ev2)
  | Except.ok sql =>
    let ev1 := firstBlock db sql
    let (r2, ev2) := secondBlock db sql
    (sql, r2, ev1 ++ ev2)

end App

/-- The render_visible contract in the words of the specification (section 4.1):
exactly the user and assistant TEXT messages, in original order, excluding
system messages and tool-bookkeeping messages (assistant tool-call messages
and tool-result messages).  Stated from the spec for comparison with the
display loops of the scripts. -/
def renderVisibleSpec {ρ : Type} (msgs : List (Msg ρ)) : List (Msg ρ) :=
  msgs.filter (fun m =>
    match m with
    | Msg.user _ => true
    | Msg.assistantText _ => true
    | _ => false)

/- ===== auxiliary lemmas for the claim proofs ===== -/

theorem containsSub_mono (n b : Str) (h : containsSub n b = true) (s t : Str) :
    containsSub n (s ++ b ++ t) = true := by
  rcases (containsSub_iff n b).mp h with ⟨u, v, rfl⟩
  refine (containsSub_iff n (s ++ (u ++ n ++ v) ++ t)).mpr ?_
  exact ⟨s ++ u, v ++ t, by simp⟩

theorem trimL_decomp (m : Str) : ∃ s t, m = s ++ trimL m ++ t := by
  refine ⟨m.takeWhile isPySpaceN,
    ((m.dropWhile isPySpaceN).reverse.takeWhile isPySpaceN).reverse, ?_⟩
  have h2 : trimL m ++ ((m.dropWhile isPySpaceN).reverse.takeWhile isPySpaceN).reverse
      = m.dropWhile isPySpaceN := by
    unfold trimL
    rw [← List.reverse_append, List.takeWhile_append_dropWhile, List.reverse_reverse]
  rw [List.append_assoc, h2, List.takeWhile_append_dropWhile]

theorem strCodes_append (a b : String) :
    strCodes (a ++ b) = strCodes a ++ strCodes b := by
  simp [strCodes, String.toList]

/- ===== concrete collaborators used by witnesses and counterexamples ===== -/

/-- A store that runs every statement, returning one row. -/
def dbOkW : DB := fun _ => DbResp.ok ["c"] [0] 1

/-- A store that returns 250 rows for every statement. -/
def db250 : DB := fun _ => DbResp.ok ["n"] (List.range 250) 250

/-- A store that raises on every statement. -/
def dbBoom : DB := fun _ => DbResp.err "relation nope does not exist"

/-- A model endpoint whose every call times out. -/
def llmTimeout : LLM App4.Result := fun _ _ => Except.error "UpstreamTimeout"

/-- A model endpoint that requests the SQL tool when tools are declared and
answers with text when they are not. -/
def llmToolThenText : LLM App4.Result := fun _ withTools =>
  if withTools then
    Except.ok (LLMResp.toolCall 1 "execute_sql_query" (strCodes "SELECT 1"))
  else
    Except.ok (LLMResp.text "there is one row")

/-- A model endpoint that requests a tool app_4.py never declared. -/
def llmUnknownTool : LLM App4.Result := fun _ _ =>
  Except.ok (LLMResp.toolCall 7 "query_database" (strCodes "SELECT 1"))

set_option maxRecDepth 4000

/- ===== C1 ===== -/

/-- C1 counterexample: in the new_app.py variant a run_query dispatch whose
query text contains the forbidden keyword DELETE is executed against the
store (one execute call), and the result is the fetched rows, not a policy
refusal — so the claim that such a dispatch returns a PolicyViolation and
issues zero store calls is false on this code. -/
theorem c1_counterexample :
    containsSub (strCodes "delete") (toLowerL (strCodes "DELETE FROM orders")) = true ∧
    NewApp.dispatchToolCall dbOkW "execute_sql_query" (strCodes "DELETE FROM orders")
      = some (NewApp.Rows.rows [0], [DbEvent.exec (strCodes "DELETE FROM orders")]) ∧
    ([DbEvent.exec (strCodes "DELETE FROM orders")] : List DbEvent) ≠ [] :=
  ⟨by decide, rfl, by decide⟩

/-- C1 amended: in the app_4.py variant, every query text containing any of
INSERT, UPDATE, DELETE, DROP, CREATE, ALTER, GRANT (case-insensitive,
anywhere in the text) makes the execute_sql_query tool branch return the
policy-refusal result and issue zero calls to the data store. -/
theorem c1_amended (db : DB) (sql : Str)
    (h : forbiddenKws.any (fun kw => containsSub kw (toLowerL sql)) = true) :
    App4.execute_sql_query db sql = (App4.Result.policyError, []) := by
  obtain ⟨kw, hmem, hc⟩ := List.any_eq_true.mp h
  have hprops : ∀ k ∈ forbiddenKws, k ≠ [] ∧ ∀ c ∈ k, isPySpaceN c = false := by
    decide
  obtain ⟨hne, hws⟩ := hprops kw hmem
  have h2 : containsSub kw (trimL (toLowerL sql)) = true :=
    containsSub_trimL hne hws hc
  rw [toLowerL_trimL] at h2
  have hb : App4.blocked sql = true :=
    List.any_eq_true.mpr ⟨kw, hmem, h2⟩
  simp [App4.execute_sql_query, hb]

/-- C1 witness: the amended theorem applied to a concrete DROP statement. -/
theorem c1_witness :
    App4.execute_sql_query dbOkW (strCodes "DROP TABLE t")
      = (App4.Result.policyError, []) :=
  c1_amended dbOkW (strCodes "DROP TABLE t") (by decide)

/- ===== C2 ===== -/

/-- C2 counterexample: in the app_3.py variant, a dispatched DELETE query is
executed against the store and then COMMITTED — a write is issued — so the
claim that no write is ever issued regardless of the requested query text is
false on this code. -/
theorem c2_counterexample :
    App3.execute_sql_query dbOkW (strCodes "DELETE FROM orders")
      = (App3.Value.message 1,
         [DbEvent.exec (strCodes "DELETE FROM orders"), DbEvent.commit]) ∧
    DbEvent.commit ∈ (App3.execute_sql_query dbOkW (strCodes "DELETE FROM orders")).2 :=
  ⟨by decide, by decide⟩

/-- C2 amended: only the app_4.py variant never issues a write — neither its
execute_sql_query tool branch nor any whole turn ever emits a commit,
independent of the query text and of the textual policy check.  The app_3,
app, and main variants execute and commit data-modifying statements. -/
theorem c2_amended (llm : LLM App4.Result) (db : DB)
    (msgs0 : List (Msg App4.Result)) (prompt : String) (sql : Str) :
    DbEvent.commit ∉ (App4.execute_sql_query db sql).2 ∧
    DbEvent.commit ∉ (App4.turn llm db msgs0 prompt).dbEvents := by
  have hq : ∀ (db : DB) (s : Str), DbEvent.commit ∉ (App4.execute_sql_query db s).2 := by
    intro db s
    unfold App4.execute_sql_query
    split
    · simp
    · split
      · simp
      · split <;> simp
  refine ⟨hq db sql, ?_⟩
  unfold App4.turn
  dsimp only
  split
  · simp
  · simp
  · split
    · split
      · simpa using hq db _
      · simpa using hq db _
    · simp

/- ===== C3 ===== -/

/-- C3 counterexample: in the main.py variant the /ask handler has no
try/except around cursor.execute, so a store that raises (here: an
undefined-relation error) makes the raised condition propagate out of the
handler (the Except.error outcome) instead of being converted to a
ToolResult error payload — the turn crashes. -/
theorem c3_counterexample :
    MainPy.ask dbBoom (strCodes "SELECT x FROM nope")
      = (Except.error "relation nope does not exist",
         [DbEvent.exec (strCodes "SELECT x FROM nope")]) := rfl

/-- C3 amended: in the app_3.py and app_4.py variants a raising store is
caught and converted to an error-payload result (formalized here for the app_3
execute_sql_query function, whose return value carries the error dict and whose type
has no crash outcome at all); the main.py variant propagates the exception
and crashes the turn. -/
theorem c3_amended (db : DB) (q : Str) (e : String) (h : db q = DbResp.err e) :
    App3.execute_sql_query db q = (App3.Value.error e, [DbEvent.exec q]) := by
  unfold App3.execute_sql_query
  rw [h]

/-- C3 witness: the amended theorem applied to a concrete raising store. -/
theorem c3_witness :
    App3.execute_sql_query dbBoom (strCodes "SELECT x FROM nope")
      = (App3.Value.error "relation nope does not exist",
         [DbEvent.exec (strCodes "SELECT x FROM nope")]) :=
  c3_amended dbBoom (strCodes "SELECT x FROM nope") "relation nope does not exist" rfl

/- ===== C4 ===== -/

/-- C4 counterexample: in the app_3.py variant a successful dispatch against
a store returning 250 rows hands back ALL 250 rows in the result dict, with
no cap at 100 and no truncation indication — the result type has no
truncation field at all. -/
theorem c4_counterexample :
    (App3.execute_sql_query db250 (strCodes "select n from t")).1
      = App3.Value.table ["n"] (List.range 250) 250 ∧
    (List.range 250).length = 250 ∧ ¬ (250 ≤ 100) :=
  ⟨by decide, by decide, by decide⟩

/-- C4 amended: in the app_4.py variant, when the store returns more than
100 rows for a query that passes the denylist, the returned result carries
only the first 100 rows (at most 100) and its truncation flag is set. -/
theorem c4_amended (db : DB) (sql : Str) (cols : List String) (rows : List Nat)
    (rc : Nat) (hb : App4.blocked sql = false)
    (hdb : db (trimL sql) = DbResp.ok cols rows rc)
    (hlen : 100 < rows.length) :
    (App4.execute_sql_query db sql).1
      = App4.Result.table rows.length (rows.take 100) true ∧
    (rows.take 100).length ≤ 100 := by
  have hne : rows.isEmpty = false := by
    cases rows with
    | nil => simp at hlen
    | cons a t => rfl
  constructor
  · simp [App4.execute_sql_query, hb, hdb, hne, decide_eq_true hlen]
  · simp only [List.length_take]
    omega

/-- C4 witness: the amended theorem applied to a store returning 250 rows. -/
theorem c4_witness :
    (App4.execute_sql_query db250 (strCodes "SELECT n FROM t")).1
      = App4.Result.table (List.range 250).length ((List.range 250).take 100) true ∧
    ((List.range 250).take 100).length ≤ 100 :=
  c4_amended db250 (strCodes "SELECT n FROM t") ["n"] (List.range 250) 250
    (by decide) rfl (by decide)

/- ===== C5 ===== -/

/-- C5 counterexample: in the app.py variant, the query text SELECT 1 —
which begins with an allowed read-only keyword and contains no forbidden
keyword — is executed against the store TWICE by the duplicated execution
blocks, not exactly once. -/
theorem c5_counterexample :
    startsWithAnyKw (toLowerL (trimL (strCodes "SELECT 1"))) specReadOnlyKws = true ∧
    forbiddenKws.all (fun kw => !(containsSub kw (toLowerL (strCodes "SELECT 1")))) = true ∧
    (execCalls (App.pipeline dbOkW (strCodes "SELECT 1")).2.2).length = 2 :=
  ⟨by decide, by decide, by decide⟩

/-- C5 amended: in the app_4.py variant, every query text beginning with an
allowed read-only keyword and containing no forbidden keyword makes the
execute_sql_query tool branch issue exactly one execute call against the
store; the app.py variant executes such a query twice. -/
theorem c5_amended (db : DB) (sql : Str)
    (h1 : startsWithAnyKw (toLowerL (trimL sql)) specReadOnlyKws = true)
    (h2 : forbiddenKws.all (fun kw => !(containsSub kw (toLowerL sql))) = true) :
    (execCalls (App4.execute_sql_query db sql).2).length = 1 := by
  have hb : App4.blocked sql = false := by
    rw [Bool.eq_false_iff]
    intro hB
    obtain ⟨kw, hmem, hc⟩ := List.any_eq_true.mp hB
    have hraw : containsSub kw (toLowerL sql) = true := by
      rw [← toLowerL_trimL] at hc
      obtain ⟨s, t, hm⟩ := trimL_decomp (toLowerL sql)
      rw [hm]
      exact containsSub_mono _ _ hc s t
    have hall := List.all_eq_true.mp h2 kw hmem
    simp [hraw] at hall
  unfold App4.execute_sql_query
  rw [hb]
  simp only [Bool.false_eq_true, if_false]
  cases db (trimL sql) with
  | err e => simp [execCalls]
  | ok cols rows rc =>
    by_cases hrows : rows.isEmpty
    · simp [hrows, execCalls]
    · simp [hrows, execCalls]

/-- C5 witness: the amended theorem applied to SELECT 1. -/
theorem c5_witness :
    (execCalls (App4.execute_sql_query dbOkW (strCodes "SELECT 1")).2).length = 1 :=
  c5_amended dbOkW (strCodes "SELECT 1") (by decide) (by decide)

/- ===== C6 ===== -/

/-- C6 counterexample: in the app_3.py variant, a tool-call request naming
the undeclared tool run_query makes the dispatch raise an uncaught KeyError
(available_functions[function_name] with no try/except in
process_user_input) — the turn crashes; no tool-result error message is
appended to the conversation for the model to self-correct on. -/
theorem c6_counterexample :
    App3.dispatch dbOkW "run_query" (strCodes "SELECT 1") none
      = Except.error "KeyError: run_query" := rfl

/-- C6 amended: neither variant reports an UnknownTool error back into the
conversation.  app_3.py raises an uncaught KeyError (the counterexample);
app_4.py, proved here, silently skips the unrecognized tool call: no
dispatcher call is made, no tool-result message is appended, the model is
not called a second time, and an empty assistant message ends the turn. -/
theorem c6_amended (llm : LLM App4.Result) (db : DB)
    (msgs0 : List (Msg App4.Result)) (p : String) (id : Nat) (fname : String)
    (sql : Str)
    (h1 : llm (msgs0 ++ [Msg.user p]) true
        = Except.ok (LLMResp.toolCall id fname sql))
    (h2 : fname ≠ "execute_sql_query") :
    App4.turn llm db msgs0 p =
      ⟨(msgs0 ++ [Msg.user p]) ++ [Msg.assistantText ""], Outcome.done "",
       [⟨msgs0 ++ [Msg.user p], true⟩], []⟩ := by
  unfold App4.turn
  dsimp only
  rw [h1]
  simp [h2]

/-- C6 witness: the amended theorem applied to a model endpoint requesting
the undeclared tool query_database. -/
theorem c6_witness :
    App4.turn llmUnknownTool dbOkW [Msg.system "s"] "hi" =
      ⟨([Msg.system "s"] ++ [Msg.user "hi"]) ++ [Msg.assistantText ""],
       Outcome.done "", [⟨[Msg.system "s"] ++ [Msg.user "hi"], true⟩], []⟩ :=
  c6_amended llmUnknownTool dbOkW [Msg.system "s"] "hi" 7 "query_database"
    (strCodes "SELECT 1") rfl (by decide)

/- ===== C7 ===== -/

/-- C7: in the app_4.py variant the user message is appended BEFORE the
model endpoint is called; if that call raises (timeout or any failure) the
turn aborts, the conversation still contains the user message just appended
(nothing rolled back), and no assistant message is appended for the turn:
the whole turn output is the conversation msgs0 ++ [user prompt], the
aborted outcome, the single model call, and no store calls. -/
theorem c7_theorem (llm : LLM App4.Result) (db : DB)
    (msgs0 : List (Msg App4.Result)) (p : String) (e : String)
    (h : llm (msgs0 ++ [Msg.user p]) true = Except.error e) :
    App4.turn llm db msgs0 p =
      ⟨msgs0 ++ [Msg.user p], Outcome.aborted e,
       [⟨msgs0 ++ [Msg.user p], true⟩], []⟩ ∧
    (App4.turn llm db msgs0 p).conv.drop msgs0.length = [Msg.user p] := by
  have h1 : App4.turn llm db msgs0 p =
      ⟨msgs0 ++ [Msg.user p], Outcome.aborted e,
       [⟨msgs0 ++ [Msg.user p], true⟩], []⟩ := by
    unfold App4.turn
    dsimp only
    rw [h]
  refine ⟨h1, ?_⟩
  rw [h1]
  exact List.drop_left msgs0 [Msg.user p]

/-- C7 witness: the theorem applied to a model endpoint that times out. -/
theorem c7_witness :
    App4.turn llmTimeout dbOkW [Msg.system "s"] "hello" =
      ⟨[Msg.system "s"] ++ [Msg.user "hello"], Outcome.aborted "UpstreamTimeout",
       [⟨[Msg.system "s"] ++ [Msg.user "hello"], true⟩], []⟩ ∧
    (App4.turn llmTimeout dbOkW [Msg.system "s"] "hello").conv.drop
        ([Msg.system "s"] : List (Msg App4.Result)).length = [Msg.user "hello"] :=
  c7_theorem llmTimeout dbOkW [Msg.system "s"] "hello" "UpstreamTimeout" rfl

/- ===== C8 ===== -/

/-- C8: in the app_4.py variant, after the tool result is appended the
second model call is made with the augmented conversation (user message,
assistant tool-call message, tool-result message) and WITHOUT tool
declarations (withTools = false), its text answer is appended as the final
assistant message, and the turn completes (Outcome.done). -/
theorem c8_theorem (llm : LLM App4.Result) (db : DB)
    (msgs0 : List (Msg App4.Result)) (p : String) (id : Nat) (sql : Str)
    (t : String)
    (h1 : llm (msgs0 ++ [Msg.user p]) true
        = Except.ok (LLMResp.toolCall id "execute_sql_query" sql))
    (h2 : llm ((msgs0 ++ [Msg.user p]) ++
          [Msg.assistantToolCall id "execute_sql_query" sql,
           Msg.toolResult id "execute_sql_query"
             (App4.execute_sql_query db sql).1]) false
        = Except.ok (LLMResp.text t)) :
    App4.turn llm db msgs0 p =
      ⟨((msgs0 ++ [Msg.user p]) ++
          [Msg.assistantToolCall id "execute_sql_query" sql,
           Msg.toolResult id "execute_sql_query"
             (App4.execute_sql_query db sql).1]) ++ [Msg.assistantText t],
       Outcome.done t,
       [⟨msgs0 ++ [Msg.user p], true⟩,
        ⟨(msgs0 ++ [Msg.user p]) ++
           [Msg.assistantToolCall id "execute_sql_query" sql,
            Msg.toolResult id "execute_sql_query"
              (App4.execute_sql_query db sql).1], false⟩],
       (App4.execute_sql_query db sql).2⟩ := by
  unfold App4.turn
  dsimp only
  rw [h1]
  simp only [if_pos rfl]
  rw [h2]
  simp

/-- C8 witness: the theorem applied to a model endpoint that first requests
the SQL tool and then answers with text. -/
theorem c8_witness :
    App4.turn llmToolThenText dbOkW [Msg.system "s"] "how many rows?" =
      ⟨(([Msg.system "s"] ++ [Msg.user "how many rows?"]) ++
          [Msg.assistantToolCall 1 "execute_sql_query" (strCodes "SELECT 1"),
           Msg.toolResult 1 "execute_sql_query"
             (App4.execute_sql_query dbOkW (strCodes "SELECT 1")).1]) ++
         [Msg.assistantText "there is one row"],
       Outcome.done "there is one row",
       [⟨[Msg.system "s"] ++ [Msg.user "how many rows?"], true⟩,
        ⟨([Msg.system "s"] ++ [Msg.user "how many rows?"]) ++
           [Msg.assistantToolCall 1 "execute_sql_query" (strCodes "SELECT 1"),
            Msg.toolResult 1 "execute_sql_query"
              (App4.execute_sql_query dbOkW (strCodes "SELECT 1")).1], false⟩],
       (App4.execute_sql_query dbOkW (strCodes "SELECT 1")).2⟩ :=
  c8_theorem llmToolThenText dbOkW [Msg.system "s"] "how many rows?" 1
    (strCodes "SELECT 1") "there is one row" rfl rfl

/- ===== C9 ===== -/

/-- True exactly on assistant messages that carry a tool call. -/
def Msg.isToolCallMsg {ρ : Type} : Msg ρ → Bool
  | Msg.assistantToolCall _ _ _ => true
  | _ => false

/-- A conversation after a tool turn, as app_4.py stores it: system prompt,
user question, assistant tool-call message, tool-result message, final
assistant answer. -/
def convC9 : List (Msg Unit) :=
  [Msg.system "sys", Msg.user "hi",
   Msg.assistantToolCall 1 "execute_sql_query" (strCodes "SELECT 1"),
   Msg.toolResult 1 "execute_sql_query" (), Msg.assistantText "answer"]

/-- An app_3.py-shaped conversation: system prompt, user question, a
function-role tool-result message, final assistant answer (app_3 never
stores an assistant tool-call message). -/
def convC9W : List (Msg Unit) :=
  [Msg.system "sys", Msg.user "hi",
   Msg.toolResult 1 "query_database" (), Msg.assistantText "answer"]

/-- C9 counterexample: the app_4.py display loop (messages[1:]) applied to a
conversation holding tool bookkeeping renders the assistant tool-call
message and the tool-result message too, so it differs from the claimed
visible subsequence (which contains only the user and assistant text
messages). -/
theorem c9_counterexample :
    App4.render convC9 ≠ renderVisibleSpec convC9 ∧
    Msg.toolResult 1 "execute_sql_query" () ∈ App4.render convC9 :=
  ⟨by decide, by decide⟩

/-- C9 amended: the app_3.py display loop filters the conversation to the
messages whose role string is "user" or "assistant"; on every conversation
that contains no assistant tool-call message (app_3 never stores one) this
equals exactly the claimed subsequence — user and assistant text messages in
original order, system and tool-result messages excluded.  The app_4.py
display instead drops only the leading system message and renders tool
bookkeeping as well (the counterexample). -/
theorem c9_amended {ρ : Type} (msgs : List (Msg ρ))
    (h : ∀ m ∈ msgs, m.isToolCallMsg = false) :
    App3.render msgs = renderVisibleSpec msgs := by
  unfold App3.render renderVisibleSpec
  apply List.filter_congr
  intro m hm
  have hmc := h m hm
  cases m <;> simp_all [Msg.isToolCallMsg]

/-- C9 witness: the amended theorem applied to a concrete app_3-shaped
conversation. -/
theorem c9_witness : App3.render convC9W = renderVisibleSpec convC9W :=
  c9_amended convC9W (by decide)

/- ===== C10 ===== -/

/-- C10: in the app.py variant, whenever the model-generated text — after
fence stripping and strip() — is longer than 2000 characters or does not
begin (after optional whitespace, case-insensitively) with one of SELECT,
WITH, EXPLAIN, SHOW, PRAGMA, extract_sql raises (Except.error), and the only
statement the pipeline sends to the database is the fixed failure-message
string that replaces the generated SQL (which therefore is itself never
executed); that replacement string always begins with the marker
"Failed to extract clean SQL: ". -/
theorem c10_theorem (db : DB) (raw : Str)
    (h : 2000 < (App.cleanSql raw).length ∨
         startsWithAnyKw (toLowerL ((App.cleanSql raw).dropWhile isPySpaceN))
           readKws = false) :
    ∃ e, App.extract_sql raw = Except.error e ∧
      execCalls (App.pipeline db raw).2.2 = [App.failMsg e] ∧
      isPre (strCodes "Failed to extract clean SQL: ") (App.failMsg e) = true := by
  have hext : ∃ e, App.extract_sql raw = Except.error e := by
    by_cases hk : startsWithAnyKw
        (toLowerL ((App.cleanSql raw).dropWhile isPySpaceN)) readKws = true
    · rcases h with hlen | hkw
      · exact ⟨"Generated SQL is too long", by simp [App.extract_sql, hk, hlen]⟩
      · rw [hk] at hkw
        cases hkw
    · have hk2 : startsWithAnyKw
          (toLowerL ((App.cleanSql raw).dropWhile isPySpaceN)) readKws = false := by
        simpa using hk
      exact ⟨"Generated text does not appear to be a valid SQL query",
        by simp [App.extract_sql, hk2]⟩
  obtain ⟨e, he⟩ := hext
  refine ⟨e, he, ?_, ?_⟩
  · unfold App.pipeline
    rw [he]
    unfold App.secondBlock
    dsimp only
    split <;> simp [execCalls]
  · unfold App.failMsg
    rw [strCodes_append]
    exact isPre_self_append _ _

/-- C10 witness: the theorem applied to the generated text DROP TABLE users,
which begins with no allowed read-only keyword. -/
theorem c10_witness :
    ∃ e, App.extract_sql (strCodes "DROP TABLE users") = Except.error e ∧
      execCalls (App.pipeline dbOkW (strCodes "DROP TABLE users")).2.2
        = [App.failMsg e] ∧
      isPre (strCodes "Failed to extract clean SQL: ") (App.failMsg e) = true :=
  c10_theorem dbOkW (strCodes "DROP TABLE users") (Or.inr (by decide))
